import Mathlib

/-!
Verification development for the sat_bot Telegram bot (src/handlers/user.py,
src/handlers/admin.py, src/app.py). The handlers are embedded as pure Lean
functions over explicit state; side effects (replies, persistence calls,
broadcast sends) are reified as an effect list in the order the source
performs them. The persistent store (database.py, absent from src) is
modelled from the spec as simple list-backed CRUD state.
-/

namespace SatBot

/-! ### Python string primitives -/

/-- Whitespace characters stripped by the Python str.strip method
(ASCII fragment, which covers all inputs used here). -/
def pyWs (c : Char) : Bool :=
  c = ' ' || c = '\t' || c = '\n' || c = '\x0d' || c = '\x0b' || c = '\x0c'

/-- Drop leading whitespace from a character list. -/
def dropWs : List Char → List Char
  | [] => []
  | c :: cs => if pyWs c then dropWs cs else c :: cs

/-- Embeds the Python expression s.strip(): remove leading and trailing
whitespace. -/
def pyStrip (s : String) : String :=
  String.mk ((dropWs (dropWs s.data).reverse).reverse)

/-- Embeds the Python expression s.isdigit() on ASCII strings: nonempty and
all characters are decimal digits. -/
def pyIsDigit (s : String) : Bool :=
  !s.data.isEmpty && s.data.all Char.isDigit

/-- Embeds _normalize_phone (user.py lines 25-28): strip, then delete every
character that is not a digit or a plus sign (re.sub applied to the
class of characters outside digits and plus). -/
def normalize_phone (text : String) : String :=
  String.mk ((pyStrip text).data.filter (fun c => c.isDigit || c = '+'))

/-- Embeds the Python expression re.sub applied with the non-digit class
(user.py line 119): keep only the digit characters of a string. -/
def digitsOnly (s : String) : String :=
  String.mk (s.data.filter Char.isDigit)

/-! ### Data model -/

/-- Registration conversation states (user.py line 20: NAME, PHONE, MENU). -/
inductive RegSt
  | NAME
  | PHONE
  | MENU
  deriving DecidableEq, Repr

/-- Admin conversation states (admin.py line 34: ADMIN_MENU, ADD_TITLE,
ADD_LINK). -/
inductive AdmSt
  | ADMIN_MENU
  | ADD_TITLE
  | ADD_LINK
  deriving DecidableEq, Repr

/-- Result of a handler: either a next conversation state or
ConversationHandler.END (the conversation is removed). -/
inductive Next (σ : Type)
  | state (s : σ)
  | END
  deriving DecidableEq, Repr

/-- Per-user scratch data: the context.user_data dictionary restricted to the
two keys the source ever writes ("full_name" in user.py, "video_title" in
admin.py). The dictionary is shared between the two conversation handlers
for a given user. -/
structure Scratch where
  full_name : Option String
  video_title : Option String
  deriving DecidableEq, Repr

/-- The empty user_data dictionary (also the result of user_data.clear()). -/
def Scratch.empty : Scratch := ⟨none, none⟩

/-- A persisted video row (id, title, youtube_link) as read back by
get_all_videos / get_all_videos_with_id. -/
structure Video where
  id : Nat
  title : String
  link : String
  deriving DecidableEq, Repr

/-- Side effects emitted by handlers, in source order. Persistence calls
(createUser, createVideo, addAdmin) double as the store mutations; reply,
videoMenu, sendMessage, logWarn and sleep are outbound-only. -/
inductive Eff
  | reply (text : String)
  | videoMenu (prompt : String) (titles : List String)
  | createUser (tid : Nat) (name phone : String)
  | createVideo (title link : String)
  | sendMessage (chatId : Nat) (text : String)
  | logWarn (chatId : Nat)
  | sleep
  | addAdmin (tid : Nat)
  deriving DecidableEq, Repr

/-- The persistent store. Users are rows (telegram_id, name, phone); the
source reads a row u as u[1]=name, u[2]=phone, u[3]=telegram_id, which here
are the name, phone and first components. -/
structure Db where
  users : List (Nat × String × String)
  videos : List Video
  admins : List Nat
  deriving DecidableEq, Repr

/-- Modelled from the spec: getUserByIdentity (database.py is not under src).
Exact lookup of a user row by telegram id. -/
def get_user_by_telegram_id (users : List (Nat × String × String)) (tid : Nat) :
    Option (Nat × String × String) :=
  users.find? (fun u => u.1 == tid)

/-- Modelled from the spec: getVideoByTitle (database.py is not under src).
Exact, case-sensitive match of a video by title. -/
def get_video_by_title (videos : List Video) (title : String) : Option Video :=
  videos.find? (fun v => v.title == title)

/-! ### user.py handlers -/

/-- Admin panel button labels ignored by the user menu handler
(user.py line 22). -/
def ADMIN_BUTTONS : List String := ["Add Video", "View Users", "Manage Videos"]

/-- Embeds _send_video_menu (user.py lines 48-62): with an empty catalogue
reply a fixed text, otherwise send the prompt with a keyboard of the video
titles. -/
def send_video_menu (videos : List Video) (prompt : String) : Eff :=
  if videos.isEmpty then Eff.reply "No videos available yet."
  else Eff.videoMenu prompt (videos.map (fun v => v.title))

/-- Embeds start_command (user.py lines 65-75): an already registered user is
sent the video menu and goes to MENU, otherwise prompt for the name and go
to NAME. -/
def start_command (tid : Nat) (db : Db) : List Eff × Next RegSt :=
  if (get_user_by_telegram_id db.users tid).isSome then
    ([send_video_menu db.videos "Welcome back! Choose a video below."], .state .MENU)
  else
    ([Eff.reply "Please enter your full name:"], .state .NAME)

/-- Embeds handle_name (user.py lines 78-98): empty text re-prompts; nonempty
text is stored under full_name and the flow moves to PHONE. -/
def handle_name (sc : Scratch) (text : Option String) : Scratch × List Eff × Next RegSt :=
  match text with
  | none => (sc, [], .state .NAME)
  | some t =>
    let full_name := pyStrip t
    if full_name = "" then
      (sc, [Eff.reply "Please enter your full name:"], .state .NAME)
    else
      ({ sc with full_name := some full_name },
       [Eff.reply "Please share your phone number (press the button):"],
       .state .PHONE)

/-- Embeds the phone extraction of handle_phone (user.py lines 113-117): a
contact payload with a truthy phone_number is used stripped but otherwise
unmodified; any other message has its text normalized by _normalize_phone. -/
def extract_phone (contactPhone : Option String) (text : Option String) : String :=
  match contactPhone with
  | some p => if p ≠ "" then pyStrip p else normalize_phone (pyStrip (text.getD ""))
  | none => normalize_phone (pyStrip (text.getD ""))

/-- Embeds handle_phone (user.py lines 101-128): with no pending name fall
back to the NAME prompt; extract the phone; fewer than 7 digits re-prompts
and stays at PHONE; otherwise create_user is called, full_name is popped and
the flow moves to MENU with the video menu. -/
def handle_phone (tid : Nat) (sc : Scratch) (contactPhone : Option String)
    (text : Option String) (videos : List Video) : Scratch × List Eff × Next RegSt :=
  let name := pyStrip (sc.full_name.getD "")
  if name = "" then
    (sc, [Eff.reply "Please enter your full name:"], .state .NAME)
  else
    let phone := extract_phone contactPhone text
    if (digitsOnly phone).data.length < 7 then
      (sc, [Eff.reply "Please share a valid phone number using the button."], .state .PHONE)
    else
      ({ sc with full_name := none },
       [Eff.createUser tid name phone,
        send_video_menu videos "Registration successful! Choose a video below."],
       .state .MENU)

/-- Embeds handle_menu (user.py lines 131-155): empty text and admin button
labels are ignored; the refresh token resends the menu; otherwise the text is
looked up as an exact video title, replying with the link when found and
staying silent when not. The state is MENU in every case. -/
def handle_menu (videos : List Video) (text : Option String) : List Eff × Next RegSt :=
  let t := pyStrip (text.getD "")
  if t = "" then ([], .state .MENU)
  else if ADMIN_BUTTONS.contains t then ([], .state .MENU)
  else if t = "🔄 Refresh videos" then
    ([send_video_menu videos "Updated list. Choose a video:"], .state .MENU)
  else
    match get_video_by_title videos t with
    | none => ([], .state .MENU)
    | some v => ([Eff.reply ("Here is your video:\n" ++ v.link)], .state .MENU)

/-- Embeds cancel (user.py lines 158-162): reply, pop full_name, end the
conversation. The video_title key is untouched. -/
def cancel (sc : Scratch) : Scratch × List Eff × Next RegSt :=
  ({ sc with full_name := none }, [Eff.reply "Cancelled."], .END)

/-! ### admin.py handlers

Each handler that calls _is_admin in the source takes the Boolean outcome of
that call as the parameter isAdm; handlers whose source never calls it take
no such parameter. -/

/-- Embeds _is_admin (admin.py lines 37-40) with the external database lookup
as a fallible parameter: the configured ADMIN_ID short-circuits to true
without consulting the lookup; every other id returns exactly the outcome of
the lookup. The source has no try/except, and asyncio.to_thread re-raises an
exception of the lookup, so a lookup failure propagates out of _is_admin. -/
def isAdminViaLookup (lookup : Nat → Except String Bool) (adminId tid : Nat) :
    Except String Bool :=
  if tid = adminId then .ok true else lookup tid

/-- Embeds admin_start (admin.py lines 44-61): a non-admin is denied and the
conversation ends; an admin has the whole user_data dictionary cleared and
enters ADMIN_MENU with the panel keyboard. -/
def admin_start (isAdm : Bool) (sc : Scratch) : Scratch × List Eff × Next AdmSt :=
  if !isAdm then (sc, [Eff.reply "Access denied."], .END)
  else (Scratch.empty, [Eff.reply "Admin panel:"], .state .ADMIN_MENU)

/-- Embeds addadmin_command (admin.py lines 64-75): any sender other than the
configured ADMIN_ID is denied; a missing or non-numeric first argument gets
the usage text; otherwise add_admin is called and a confirmation is sent. -/
def addadmin_command (adminId sender : Nat) (args : List String) : List Eff :=
  if sender ≠ adminId then [Eff.reply "Access denied."]
  else if args.isEmpty || !pyIsDigit (args.headD "") then
    [Eff.reply "Usage: /addadmin <telegram_id>"]
  else
    let n := (args.headD "").toNat?.getD 0
    [Eff.addAdmin n, Eff.reply ("Added admin: " ++ toString n)]

/-- Embeds add_video_start (admin.py lines 79-87): deny and end for a
non-admin; otherwise prompt for the title and enter ADD_TITLE. -/
def add_video_start (isAdm : Bool) : List Eff × Next AdmSt :=
  if !isAdm then ([Eff.reply "Access denied."], .END)
  else ([Eff.reply "Enter video title:"], .state .ADD_TITLE)

/-- Embeds add_video_title (admin.py lines 90-99). The source performs no
_is_admin call in this handler: missing text keeps ADD_TITLE, empty text
re-prompts, and nonempty text is stored as video_title before moving to
ADD_LINK. -/
def add_video_title (sc : Scratch) (text : Option String) : Scratch × List Eff × Next AdmSt :=
  match text with
  | none => (sc, [], .state .ADD_TITLE)
  | some t =>
    let title := pyStrip t
    if title = "" then
      (sc, [Eff.reply "Enter video title:"], .state .ADD_TITLE)
    else
      ({ sc with video_title := some title },
       [Eff.reply "Enter YouTube link:"], .state .ADD_LINK)

/-- Embeds the broadcast loop of add_video_link (admin.py lines 125-131): for
each recipient, one send attempt; on failure a warning log; then the pacing
sleep, before moving to the next recipient. The deliver oracle says whether
the send for a given chat id succeeds or raises. -/
def broadcastEffects (deliver : Nat → Bool) (msg : String) : List Nat → List Eff
  | [] => []
  | tid :: rest =>
    (if deliver tid then [Eff.sendMessage tid msg] else [Eff.sendMessage tid msg, Eff.logWarn tid])
      ++ Eff.sleep :: broadcastEffects deliver msg rest

/-- Embeds add_video_link (admin.py lines 102-140): missing text keeps
ADD_LINK; a non-admin is denied and the conversation ends; a missing title
falls back to ADD_TITLE and an empty link to ADD_LINK; otherwise the video is
persisted, video_title is popped, a success reply is sent, the broadcast loop
runs over all users, and the panel is shown again at ADMIN_MENU. -/
def add_video_link (isAdm : Bool) (sc : Scratch) (text : Option String)
    (users : List (Nat × String × String)) (deliver : Nat → Bool) :
    Scratch × List Eff × Next AdmSt :=
  match text with
  | none => (sc, [], .state .ADD_LINK)
  | some t =>
    if !isAdm then (sc, [Eff.reply "Access denied."], .END)
    else
      let title := pyStrip (sc.video_title.getD "")
      let youtube_link := pyStrip t
      if title = "" then (sc, [], .state .ADD_TITLE)
      else if youtube_link = "" then (sc, [], .state .ADD_LINK)
      else
        let msg := "New video just released!\n" ++ youtube_link
        ({ sc with video_title := none },
         Eff.createVideo title youtube_link :: Eff.reply "Video added successfully." ::
           (broadcastEffects deliver msg (users.map (fun u => u.1)) ++ [Eff.reply "Admin panel:"]),
         .state .ADMIN_MENU)

/-- Embeds view_users (admin.py lines 144-164): a non-admin is denied but the
state stays ADMIN_MENU; an empty store replies a fixed text; otherwise one
reply per user row. -/
def view_users (isAdm : Bool) (users : List (Nat × String × String)) :
    List Eff × Next AdmSt :=
  if !isAdm then ([Eff.reply "Access denied."], .state .ADMIN_MENU)
  else if users.isEmpty then ([Eff.reply "No registered users."], .state .ADMIN_MENU)
  else
    (users.map (fun u =>
       Eff.reply ("Name: " ++ u.2.1 ++ "\nPhone: " ++ u.2.2 ++ "\nTelegram ID: " ++ toString u.1)),
     .state .ADMIN_MENU)

/-- Embeds manage_videos (admin.py lines 185-204): a non-admin is denied but
the state stays ADMIN_MENU; an empty catalogue replies a fixed text;
otherwise one reply per video. -/
def manage_videos (isAdm : Bool) (videos : List Video) : List Eff × Next AdmSt :=
  if !isAdm then ([Eff.reply "Access denied."], .state .ADMIN_MENU)
  else if videos.isEmpty then ([Eff.reply "No videos available."], .state .ADMIN_MENU)
  else
    (videos.map (fun v => Eff.reply ("Title: " ++ v.title ++ "\nLink: " ++ v.link)),
     .state .ADMIN_MENU)

/-- Embeds admin_menu_router (admin.py lines 224-236): dispatch on the
stripped text to add_video_start, view_users or manage_videos; any other text
is ignored and the state stays ADMIN_MENU. -/
def admin_menu_router (isAdm : Bool) (sc : Scratch) (text : Option String)
    (users : List (Nat × String × String)) (videos : List Video) :
    Scratch × List Eff × Next AdmSt :=
  let t := pyStrip (text.getD "")
  if t = "Add Video" then
    let r := add_video_start isAdm
    (sc, r.1, r.2)
  else if t = "View Users" then
    let r := view_users isAdm users
    (sc, r.1, r.2)
  else if t = "Manage Videos" then
    let r := manage_videos isAdm videos
    (sc, r.1, r.2)
  else (sc, [], .state .ADMIN_MENU)

/-- Embeds admin_cancel (admin.py lines 239-242): reply and end the
conversation. The user_data dictionary is not touched, so a pending
video_title survives. -/
def admin_cancel (sc : Scratch) : Scratch × List Eff × Next AdmSt :=
  (sc, [Eff.reply "Closed admin panel."], .END)

/-! ### The dispatcher

The application registers the /addadmin command handler and the admin
conversation handler in group 0 and the registration conversation handler in
group 2 (app.py lines 64-73). Per the framework, every group processes the
update: a handled update in group 0 does not stop group 2. Each
ConversationHandler keeps its own per-user state table; entry points are only
consulted while that handler has no active conversation for the user
(allow_reentry is off), state handlers are tried first and the /cancel
fallback afterwards. Message handlers are gated by filters: the TEXT handlers
never match commands or contact messages, the CONTACT handler only matches
contact messages. -/

/-- A decoded inbound event from one sender. -/
inductive Event
  | cmdStart
  | cmdAdmin
  | cmdCancel
  | cmdAddadmin (args : List String)
  | msgText (t : String)
  | msgContact (phone : Option String)
  deriving DecidableEq, Repr

/-- Whole-system state: the two per-user conversation tables, the shared
per-user user_data dictionaries, and the persistent store. -/
structure Sys where
  regConv : Nat → Option RegSt
  admConv : Nat → Option AdmSt
  scratch : Nat → Scratch
  db : Db

/-- Apply one persistence effect to the store; outbound effects change
nothing. Video ids are assigned by autoincrement position. -/
def applyEff (db : Db) : Eff → Db
  | .createUser tid name phone => { db with users := db.users ++ [(tid, name, phone)] }
  | .createVideo title link =>
      { db with videos := db.videos ++ [⟨db.videos.length, title, link⟩] }
  | .addAdmin tid => { db with admins := db.admins ++ [tid] }
  | _ => db

/-- Apply a list of effects to the store, in order. -/
def applyEffs (db : Db) (effs : List Eff) : Db := effs.foldl applyEff db

/-- Commit the persistence effects of one handler call. -/
def commitDb (s : Sys) (effs : List Eff) : Sys := { s with db := applyEffs s.db effs }

/-- Replace the scratch dictionary of one sender. -/
def setScratch (s : Sys) (tid : Nat) (sc : Scratch) : Sys :=
  { s with scratch := fun i => if i = tid then sc else s.scratch i }

/-- Record the next registration-conversation state of one sender; END
removes the entry. -/
def setReg (s : Sys) (tid : Nat) (n : Next RegSt) : Sys :=
  { s with regConv := fun i =>
      if i = tid then (match n with | .state st => some st | .END => none)
      else s.regConv i }

/-- Record the next admin-conversation state of one sender; END removes the
entry. -/
def setAdm (s : Sys) (tid : Nat) (n : Next AdmSt) : Sys :=
  { s with admConv := fun i =>
      if i = tid then (match n with | .state st => some st | .END => none)
      else s.admConv i }

/-- The _is_admin outcome computed against the current store: the configured
id or a stored AdminRecord (the non-failing instance of isAdminViaLookup used
by the closed system). -/
def isAdmB (adminId : Nat) (db : Db) (tid : Nat) : Bool :=
  tid == adminId || db.admins.contains tid

/-- One step of the admin ConversationHandler for the event of one sender.
The _is_admin outcome is computed against the current store (no failure in
the closed system). -/
def admStep (adminId : Nat) (deliver : Nat → Bool) (s : Sys) (tid : Nat) (ev : Event) :
    Sys × List Eff :=
  let isAdm := isAdmB adminId s.db tid
  match s.admConv tid with
  | none =>
    match ev with
    | .cmdAdmin =>
        let r := admin_start isAdm (s.scratch tid)
        (setAdm (setScratch s tid r.1) tid r.2.2, r.2.1)
    | _ => (s, [])
  | some st =>
    match st, ev with
    | .ADMIN_MENU, .msgText t =>
        let r := admin_menu_router isAdm (s.scratch tid) (some t) s.db.users s.db.videos
        (setAdm (setScratch s tid r.1) tid r.2.2, r.2.1)
    | .ADD_TITLE, .msgText t =>
        let r := add_video_title (s.scratch tid) (some t)
        (setAdm (setScratch s tid r.1) tid r.2.2, r.2.1)
    | .ADD_LINK, .msgText t =>
        let r := add_video_link isAdm (s.scratch tid) (some t) s.db.users deliver
        (setAdm (setScratch (commitDb s r.2.1) tid r.1) tid r.2.2, r.2.1)
    | _, .cmdCancel =>
        let r := admin_cancel (s.scratch tid)
        (setAdm (setScratch s tid r.1) tid r.2.2, r.2.1)
    | _, _ => (s, [])

/-- One step of the registration ConversationHandler for the event of one
sender. -/
def regStep (s : Sys) (tid : Nat) (ev : Event) : Sys × List Eff :=
  match s.regConv tid with
  | none =>
    match ev with
    | .cmdStart =>
        let r := start_command tid s.db
        (setReg (commitDb s r.1) tid r.2, r.1)
    | _ => (s, [])
  | some st =>
    match st, ev with
    | .NAME, .msgText t =>
        let r := handle_name (s.scratch tid) (some t)
        (setReg (setScratch (commitDb s r.2.1) tid r.1) tid r.2.2, r.2.1)
    | .PHONE, .msgText t =>
        let r := handle_phone tid (s.scratch tid) none (some t) s.db.videos
        (setReg (setScratch (commitDb s r.2.1) tid r.1) tid r.2.2, r.2.1)
    | .PHONE, .msgContact p =>
        let r := handle_phone tid (s.scratch tid) p none s.db.videos
        (setReg (setScratch (commitDb s r.2.1) tid r.1) tid r.2.2, r.2.1)
    | .MENU, .msgText t =>
        let r := handle_menu s.db.videos (some t)
        (setReg (commitDb s r.1) tid r.2, r.1)
    | _, .cmdCancel =>
        let r := cancel (s.scratch tid)
        (setReg (setScratch s tid r.1) tid r.2.2, r.2.1)
    | _, _ => (s, [])

/-- One dispatcher step: group 0 (the /addadmin command handler, then the
admin conversation handler), then group 2 (the registration conversation
handler), with the effects concatenated in execution order. -/
def step (adminId : Nat) (deliver : Nat → Bool) (s : Sys) (tid : Nat) (ev : Event) :
    Sys × List Eff :=
  let g0a :=
    match ev with
    | .cmdAddadmin args =>
        let effs := addadmin_command adminId tid args
        (commitDb s effs, effs)
    | _ => (s, [])
  let g0b := admStep adminId deliver g0a.1 tid ev
  let g2 := regStep g0b.1 tid ev
  (g2.1, g0a.2 ++ g0b.2 ++ g2.2)

/-- The initial system: no conversations, empty dictionaries, empty store
apart from a given list of stored admin ids. -/
def initSys (admins : List Nat) : Sys :=
  { regConv := fun _ => none
    admConv := fun _ => none
    scratch := fun _ => Scratch.empty
    db := { users := [], videos := [], admins := admins } }

/-- Number of active conversation entries for one sender across the two
conversation handlers. -/
def activeConvCount (s : Sys) (tid : Nat) : Nat :=
  (if (s.regConv tid).isSome then 1 else 0) + (if (s.admConv tid).isSome then 1 else 0)

/-! ### Effect-trace projections -/

/-- The (title, link) pairs persisted by createVideo effects, in order. -/
def createdVideos (effs : List Eff) : List (String × String) :=
  effs.filterMap (fun e => match e with | .createVideo t l => some (t, l) | _ => none)

/-- The (recipient, text) pairs of send attempts, in order. -/
def sendAttempts (effs : List Eff) : List (Nat × String) :=
  effs.filterMap (fun e => match e with | .sendMessage c t => some (c, t) | _ => none)

/-- The recipients whose delivery failure was logged, in order. -/
def loggedFailures (effs : List Eff) : List Nat :=
  effs.filterMap (fun e => match e with | .logWarn c => some c | _ => none)

/-- The ids passed to add_admin effects, in order. -/
def addedAdmins (effs : List Eff) : List Nat :=
  effs.filterMap (fun e => match e with | .addAdmin c => some c | _ => none)

/-- Number of pacing sleeps in an effect trace. -/
def sleepCount (effs : List Eff) : Nat :=
  (effs.filter (fun e => match e with | Eff.sleep => true | _ => false)).length

/-! ### Dispatcher reduction lemmas -/

/-- The registration handler ignores the /admin command in every
configuration: it is neither an entry point nor a fallback of that handler. -/
theorem regStep_cmdAdmin (s : Sys) (tid : Nat) : regStep s tid .cmdAdmin = (s, []) := by
  unfold regStep
  rcases h : s.regConv tid with _ | st
  · rfl
  · cases st <;> rfl

/-- Reduction of the admin handler on /admin with no active admin
conversation and a privileged sender. -/
theorem admStep_cmdAdmin_none (adminId : Nat) (deliver : Nat → Bool) (s : Sys) (tid : Nat)
    (h : s.admConv tid = none) (hadm : isAdmB adminId s.db tid = true) :
    admStep adminId deliver s tid .cmdAdmin =
      (setAdm (setScratch s tid Scratch.empty) tid (.state .ADMIN_MENU),
       [Eff.reply "Admin panel:"]) := by
  unfold admStep
  rw [h]
  simp only [hadm, admin_start, Bool.not_true, Bool.false_eq_true, if_false]

/-- Reduction of a full dispatcher step on /admin with no active admin
conversation and a privileged sender. -/
theorem step_cmdAdmin_none (adminId : Nat) (deliver : Nat → Bool) (s : Sys) (tid : Nat)
    (h : s.admConv tid = none) (hadm : isAdmB adminId s.db tid = true) :
    step adminId deliver s tid .cmdAdmin =
      (setAdm (setScratch s tid Scratch.empty) tid (.state .ADMIN_MENU),
       [Eff.reply "Admin panel:"]) := by
  unfold step
  simp only [admStep_cmdAdmin_none adminId deliver s tid h hadm, regStep_cmdAdmin,
    List.nil_append, List.append_nil]

/-- The admin handler ignores /cancel while it has no active conversation. -/
theorem admStep_cmdCancel_none (adminId : Nat) (deliver : Nat → Bool) (s : Sys) (tid : Nat)
    (h : s.admConv tid = none) : admStep adminId deliver s tid .cmdCancel = (s, []) := by
  unfold admStep
  rw [h]

/-- Reduction of the admin handler on /cancel in any active admin state. -/
theorem admStep_cmdCancel_some (adminId : Nat) (deliver : Nat → Bool) (s : Sys) (tid : Nat)
    (st : AdmSt) (h : s.admConv tid = some st) :
    admStep adminId deliver s tid .cmdCancel =
      (setAdm (setScratch s tid (s.scratch tid)) tid .END,
       [Eff.reply "Closed admin panel."]) := by
  unfold admStep
  rw [h]
  cases st <;> rfl

/-- The registration handler ignores /cancel while it has no active
conversation. -/
theorem regStep_cmdCancel_none (s : Sys) (tid : Nat) (h : s.regConv tid = none) :
    regStep s tid .cmdCancel = (s, []) := by
  unfold regStep
  rw [h]

/-- Reduction of the registration handler on /cancel in any active state. -/
theorem regStep_cmdCancel_some (s : Sys) (tid : Nat) (st : RegSt) (h : s.regConv tid = some st) :
    regStep s tid .cmdCancel =
      (setReg (setScratch s tid { s.scratch tid with full_name := none }) tid .END,
       [Eff.reply "Cancelled."]) := by
  unfold regStep
  rw [h]
  cases st <;> rfl

/-- Reduction of a full dispatcher step on /cancel when only the registration
conversation is active. -/
theorem step_cmdCancel_regOnly (adminId : Nat) (deliver : Nat → Bool) (s : Sys) (tid : Nat)
    (st : RegSt) (hreg : s.regConv tid = some st) (hadm : s.admConv tid = none) :
    step adminId deliver s tid .cmdCancel =
      (setReg (setScratch s tid { s.scratch tid with full_name := none }) tid .END,
       [Eff.reply "Cancelled."]) := by
  unfold step
  simp only [admStep_cmdCancel_none adminId deliver s tid hadm,
    regStep_cmdCancel_some s tid st hreg, List.nil_append, List.append_nil]

/-- Reduction of a full dispatcher step on /cancel when only the admin
conversation is active. -/
theorem step_cmdCancel_admOnly (adminId : Nat) (deliver : Nat → Bool) (s : Sys) (tid : Nat)
    (ast : AdmSt) (hadm : s.admConv tid = some ast) (hreg : s.regConv tid = none) :
    step adminId deliver s tid .cmdCancel =
      (setAdm (setScratch s tid (s.scratch tid)) tid .END,
       [Eff.reply "Closed admin panel."]) := by
  unfold step
  simp only [admStep_cmdCancel_some adminId deliver s tid ast hadm]
  rw [regStep_cmdCancel_none (setAdm (setScratch s tid (s.scratch tid)) tid .END) tid hreg]
  simp only [List.nil_append, List.append_nil]

/-! ### Broadcast trace lemmas -/

/-- Every recipient gets exactly one send attempt with the broadcast text, in
list order, whatever the delivery outcomes are. -/
theorem broadcast_send_raw (deliver : Nat → Bool) (msg : String) (l : List Nat) :
    (broadcastEffects deliver msg l).filterMap
      (fun e => match e with | Eff.sendMessage c t => some (c, t) | _ => none) =
      l.map (fun r => (r, msg)) := by
  induction l with
  | nil => rfl
  | cons a l ih => cases h : deliver a <;> simp [broadcastEffects, h, ih]

/-- Exactly the recipients whose delivery fails are logged, in list order. -/
theorem broadcast_log_raw (deliver : Nat → Bool) (msg : String) (l : List Nat) :
    (broadcastEffects deliver msg l).filterMap
      (fun e => match e with | Eff.logWarn c => some c | _ => none) =
      l.filter (fun r => !deliver r) := by
  induction l with
  | nil => rfl
  | cons a l ih => cases h : deliver a <;> simp [broadcastEffects, h, ih, List.filter]

/-- One pacing sleep per recipient. -/
theorem broadcast_sleep_raw (deliver : Nat → Bool) (msg : String) (l : List Nat) :
    ((broadcastEffects deliver msg l).filter
      (fun e => match e with | Eff.sleep => true | _ => false)).length = l.length := by
  induction l with
  | nil => rfl
  | cons a l ih => cases h : deliver a <;> simp [broadcastEffects, h, ih, List.filter]

/-- The broadcast loop persists nothing. -/
theorem broadcast_created_raw (deliver : Nat → Bool) (msg : String) (l : List Nat) :
    (broadcastEffects deliver msg l).filterMap
      (fun e => match e with | Eff.createVideo t lk => some (t, lk) | _ => none) = [] := by
  induction l with
  | nil => rfl
  | cons a l ih => cases h : deliver a <;> simp [broadcastEffects, h, ih]

/-! ### Claim C1 -/

/-- System after the super-admin sends /start from the initial state. -/
def c1AfterStart : Sys := (step 1 (fun _ => true) (initSys []) 1 .cmdStart).1

/-- System after the super-admin then sends /admin. -/
def c1AfterAdmin : Sys := (step 1 (fun _ => true) c1AfterStart 1 .cmdAdmin).1

/-- C1 counterexample: after /start followed by /admin the sender has TWO
active conversation-state entries at once — the registration handler still
records NAME while the admin handler records ADMIN_MENU — so starting the
admin conversation does not remove the other conversation state, refuting
the claim that at most one entry is active per sender. -/
theorem C1_counterexample :
    c1AfterAdmin.regConv 1 = some RegSt.NAME ∧
    c1AfterAdmin.admConv 1 = some AdmSt.ADMIN_MENU ∧
    activeConvCount c1AfterAdmin 1 = 2 :=
  ⟨rfl, rfl, rfl⟩

/-- C1 amended: each handler separately keeps at most one conversation state
per sender, and starting the admin conversation for a privileged sender
clears the shared scratch data but leaves the registration conversation
state in place, so both flows end up simultaneously active for that
sender. -/
theorem C1_amended (adminId : Nat) (deliver : Nat → Bool) (s : Sys) (tid : Nat) (st : RegSt)
    (hreg : s.regConv tid = some st) (hadm : s.admConv tid = none)
    (hpriv : isAdmB adminId s.db tid = true) :
    (step adminId deliver s tid .cmdAdmin).1.regConv tid = some st ∧
    (step adminId deliver s tid .cmdAdmin).1.admConv tid = some AdmSt.ADMIN_MENU ∧
    (step adminId deliver s tid .cmdAdmin).1.scratch tid = Scratch.empty ∧
    activeConvCount (step adminId deliver s tid .cmdAdmin).1 tid = 2 := by
  rw [step_cmdAdmin_none adminId deliver s tid hadm hpriv]
  refine ⟨hreg, ?_, ?_, ?_⟩
  · simp [setAdm]
  · simp [setAdm, setScratch]
  · simp [activeConvCount, setAdm, setScratch, hreg]

/-- A system with an active registration conversation for sender 1. -/
def regActiveSys : Sys :=
  { regConv := fun i => if i = 1 then some RegSt.NAME else none
    admConv := fun _ => none
    scratch := fun _ => Scratch.empty
    db := { users := [], videos := [], admins := [] } }

/-- Witness for C1 amended at a concrete system. -/
theorem C1_amended_witness :
    (step 1 (fun _ => true) regActiveSys 1 .cmdAdmin).1.regConv 1 = some RegSt.NAME ∧
    (step 1 (fun _ => true) regActiveSys 1 .cmdAdmin).1.admConv 1 = some AdmSt.ADMIN_MENU ∧
    (step 1 (fun _ => true) regActiveSys 1 .cmdAdmin).1.scratch 1 = Scratch.empty ∧
    activeConvCount (step 1 (fun _ => true) regActiveSys 1 .cmdAdmin).1 1 = 2 :=
  C1_amended 1 (fun _ => true) regActiveSys 1 RegSt.NAME rfl rfl rfl

/-! ### Claim C2 -/

/-- A system where non-admin sender 5 sits at ADD_TITLE of the add-video
flow. -/
def nonAdminAtTitle : Sys :=
  { regConv := fun _ => none
    admConv := fun i => if i = 5 then some AdmSt.ADD_TITLE else none
    scratch := fun _ => Scratch.empty
    db := { users := [], videos := [], admins := [] } }

/-- C2 counterexample: at the AwaitingTitle transition the code performs no
isAdmin check at all — a sender who is not an admin (not the configured id,
no AdminRecord) submits a title and, instead of an AccessDenied reply and
termination, is prompted for the link, advanced to ADD_LINK, and has the
title recorded in conversation scratch. -/
theorem C2_counterexample :
    isAdmB 1 nonAdminAtTitle.db 5 = false ∧
    (step 1 (fun _ => true) nonAdminAtTitle 5 (.msgText "My Title")).2 =
      [Eff.reply "Enter YouTube link:"] ∧
    (step 1 (fun _ => true) nonAdminAtTitle 5 (.msgText "My Title")).1.admConv 5 =
      some AdmSt.ADD_LINK ∧
    ((step 1 (fun _ => true) nonAdminAtTitle 5 (.msgText "My Title")).1.scratch 5).video_title =
      some "My Title" :=
  ⟨rfl, rfl, rfl, rfl⟩

/-- C2 amended: the entry points (/admin and the Add Video selection) and the
AwaitingLink transition check isAdmin first and, for a non-admin, reply
Access denied and end the conversation; the View Users and Manage Videos
selections reply Access denied but keep the conversation at ADMIN_MENU
rather than terminating; and the AwaitingTitle transition performs no admin
check at all, advancing on any nonempty title. -/
theorem C2_amended :
    (∀ sc : Scratch, admin_start false sc = (sc, [Eff.reply "Access denied."], .END)) ∧
    (add_video_start false = ([Eff.reply "Access denied."], .END)) ∧
    (∀ (sc : Scratch) (t : String) (users : List (Nat × String × String)) (deliver : Nat → Bool),
      add_video_link false sc (some t) users deliver = (sc, [Eff.reply "Access denied."], .END)) ∧
    (∀ users, view_users false users = ([Eff.reply "Access denied."], .state .ADMIN_MENU)) ∧
    (∀ videos, manage_videos false videos = ([Eff.reply "Access denied."], .state .ADMIN_MENU)) ∧
    (∀ (sc : Scratch) (t : String), pyStrip t ≠ "" →
      add_video_title sc (some t) =
        ({ sc with video_title := some (pyStrip t) },
         [Eff.reply "Enter YouTube link:"], .state .ADD_LINK)) := by
  refine ⟨fun sc => rfl, rfl, fun sc t users deliver => rfl, fun users => rfl,
    fun videos => rfl, fun sc t h => ?_⟩
  simp only [add_video_title, if_neg h]

/-- Witness for C2 amended at concrete inputs. -/
theorem C2_amended_witness :
    admin_start false Scratch.empty = (Scratch.empty, [Eff.reply "Access denied."], .END) ∧
    add_video_title Scratch.empty (some "My Title") =
      ({ Scratch.empty with video_title := some (pyStrip "My Title") },
       [Eff.reply "Enter YouTube link:"], .state .ADD_LINK) :=
  ⟨C2_amended.1 Scratch.empty, C2_amended.2.2.2.2.2 Scratch.empty "My Title" (by decide)⟩

/-! ### Claim C3 -/

/-- System after sender 1 sends /start from the initial state. -/
def c3AfterStart : Sys := (step 1 (fun _ => true) (initSys []) 1 .cmdStart).1

/-- System after sender 1 then submits the name Alice. -/
def c3AfterName : Sys := (step 1 (fun _ => true) c3AfterStart 1 (.msgText "Alice")).1

/-- System after sender 1 then sends /admin while the user flow is mid-way
with nonempty scratch. -/
def c3AfterAdmin : Sys := (step 1 (fun _ => true) c3AfterName 1 .cmdAdmin).1

/-- C3 counterexample: /admin during an active user flow does clear the prior
scratch entirely, but the resulting registry does NOT reflect only the new
conversation — the registration conversation entry for the sender is still
recorded at PHONE alongside the new ADMIN_MENU entry. -/
theorem C3_counterexample :
    c3AfterName.scratch 1 = ⟨some "Alice", none⟩ ∧
    c3AfterAdmin.scratch 1 = Scratch.empty ∧
    c3AfterAdmin.admConv 1 = some AdmSt.ADMIN_MENU ∧
    c3AfterAdmin.regConv 1 = some RegSt.PHONE :=
  ⟨rfl, rfl, rfl, rfl⟩

/-- C3 amended: admin entry for a privileged sender clears the prior scratch
data entirely and records the admin conversation at its initial state
ADMIN_MENU with only the panel reply emitted, but any existing
registration-conversation state entry for the sender is left unchanged
rather than removed. -/
theorem C3_amended (adminId : Nat) (deliver : Nat → Bool) (s : Sys) (tid : Nat)
    (hadm : s.admConv tid = none) (hpriv : isAdmB adminId s.db tid = true) :
    (step adminId deliver s tid .cmdAdmin).1.scratch tid = Scratch.empty ∧
    (step adminId deliver s tid .cmdAdmin).1.admConv tid = some AdmSt.ADMIN_MENU ∧
    (step adminId deliver s tid .cmdAdmin).1.regConv tid = s.regConv tid ∧
    (step adminId deliver s tid .cmdAdmin).2 = [Eff.reply "Admin panel:"] := by
  rw [step_cmdAdmin_none adminId deliver s tid hadm hpriv]
  refine ⟨?_, ?_, rfl, rfl⟩
  · simp [setAdm, setScratch]
  · simp [setAdm]

/-- A system with an active user flow and nonempty scratch for sender 1. -/
def scratchySys : Sys :=
  { regConv := fun i => if i = 1 then some RegSt.PHONE else none
    admConv := fun _ => none
    scratch := fun i => if i = 1 then ⟨some "Alice", none⟩ else Scratch.empty
    db := { users := [], videos := [], admins := [] } }

/-- Witness for C3 amended at a concrete system with nonempty scratch. -/
theorem C3_amended_witness :
    (step 1 (fun _ => true) scratchySys 1 .cmdAdmin).1.scratch 1 = Scratch.empty ∧
    (step 1 (fun _ => true) scratchySys 1 .cmdAdmin).1.admConv 1 = some AdmSt.ADMIN_MENU ∧
    (step 1 (fun _ => true) scratchySys 1 .cmdAdmin).1.regConv 1 = scratchySys.regConv 1 ∧
    (step 1 (fun _ => true) scratchySys 1 .cmdAdmin).2 = [Eff.reply "Admin panel:"] :=
  C3_amended 1 (fun _ => true) scratchySys 1 rfl rfl

/-! ### Claim C4 -/

/-- System after the super-admin sends /admin from the initial state. -/
def c4AfterAdmin : Sys := (step 1 (fun _ => true) (initSys []) 1 .cmdAdmin).1

/-- System after the super-admin then selects Add Video. -/
def c4AfterAddVideo : Sys := (step 1 (fun _ => true) c4AfterAdmin 1 (.msgText "Add Video")).1

/-- System after the super-admin then submits a title, leaving a pending
video title in scratch. -/
def c4AfterTitle : Sys := (step 1 (fun _ => true) c4AfterAddVideo 1 (.msgText "My Title")).1

/-- Result of the super-admin then sending /cancel mid add-video flow. -/
def c4CancelResult : Sys × List Eff := step 1 (fun _ => true) c4AfterTitle 1 .cmdCancel

/-- C4 counterexample: /cancel during the add-video flow terminates the admin
conversation but admin_cancel never pops the pending video title, so
residual scratch data survives termination, refuting the claim that cancel
clears all of the conversation scratch data. -/
theorem C4_counterexample :
    (c4AfterTitle.scratch 1).video_title = some "My Title" ∧
    c4CancelResult.1.admConv 1 = none ∧
    c4CancelResult.2 = [Eff.reply "Closed admin panel."] ∧
    (c4CancelResult.1.scratch 1).video_title = some "My Title" :=
  ⟨rfl, rfl, rfl, rfl⟩

/-- C4 amended: cancel in the registration flow ends the conversation and
clears the pending full name (leaving any pending video title untouched);
cancel in the admin flow ends the conversation but leaves the whole scratch
dictionary unchanged, so a pending video title persists past termination. -/
theorem C4_amended (adminId : Nat) (deliver : Nat → Bool) (s : Sys) (tid : Nat) :
    (∀ st : RegSt, s.regConv tid = some st → s.admConv tid = none →
      (step adminId deliver s tid .cmdCancel).1.regConv tid = none ∧
      ((step adminId deliver s tid .cmdCancel).1.scratch tid).full_name = none ∧
      ((step adminId deliver s tid .cmdCancel).1.scratch tid).video_title =
        (s.scratch tid).video_title ∧
      (step adminId deliver s tid .cmdCancel).2 = [Eff.reply "Cancelled."]) ∧
    (∀ ast : AdmSt, s.admConv tid = some ast → s.regConv tid = none →
      (step adminId deliver s tid .cmdCancel).1.admConv tid = none ∧
      (step adminId deliver s tid .cmdCancel).1.scratch tid = s.scratch tid ∧
      (step adminId deliver s tid .cmdCancel).2 = [Eff.reply "Closed admin panel."]) := by
  constructor
  · intro st hreg hadm
    rw [step_cmdCancel_regOnly adminId deliver s tid st hreg hadm]
    refine ⟨?_, ?_, ?_, rfl⟩
    · simp [setReg]
    · simp [setReg, setScratch]
    · simp [setReg, setScratch]
  · intro ast hadm hreg
    rw [step_cmdCancel_admOnly adminId deliver s tid ast hadm hreg]
    refine ⟨?_, ?_, rfl⟩
    · simp [setAdm]
    · simp [setAdm, setScratch]

/-- A system with the admin flow at ADD_LINK and a pending video title for
sender 1. -/
def admMidFlowSys : Sys :=
  { regConv := fun _ => none
    admConv := fun i => if i = 1 then some AdmSt.ADD_LINK else none
    scratch := fun i => if i = 1 then ⟨none, some "My Title"⟩ else Scratch.empty
    db := { users := [], videos := [], admins := [] } }

/-- A system with the registration flow at PHONE and a pending full name for
sender 2. -/
def regMidFlowSys : Sys :=
  { regConv := fun i => if i = 2 then some RegSt.PHONE else none
    admConv := fun _ => none
    scratch := fun i => if i = 2 then ⟨some "Alice", none⟩ else Scratch.empty
    db := { users := [], videos := [], admins := [] } }

/-- Witness for C4 amended at concrete mid-flow systems. -/
theorem C4_amended_witness :
    ((step 1 (fun _ => true) regMidFlowSys 2 .cmdCancel).1.regConv 2 = none ∧
     ((step 1 (fun _ => true) regMidFlowSys 2 .cmdCancel).1.scratch 2).full_name = none ∧
     ((step 1 (fun _ => true) regMidFlowSys 2 .cmdCancel).1.scratch 2).video_title =
       (regMidFlowSys.scratch 2).video_title ∧
     (step 1 (fun _ => true) regMidFlowSys 2 .cmdCancel).2 = [Eff.reply "Cancelled."]) ∧
    ((step 1 (fun _ => true) admMidFlowSys 1 .cmdCancel).1.admConv 1 = none ∧
     (step 1 (fun _ => true) admMidFlowSys 1 .cmdCancel).1.scratch 1 = admMidFlowSys.scratch 1 ∧
     (step 1 (fun _ => true) admMidFlowSys 1 .cmdCancel).2 = [Eff.reply "Closed admin panel."]) :=
  ⟨(C4_amended 1 (fun _ => true) regMidFlowSys 2).1 RegSt.PHONE rfl rfl,
   (C4_amended 1 (fun _ => true) admMidFlowSys 1).2 AdmSt.ADD_LINK rfl rfl⟩

/-! ### Claim C5 -/

/-- C5 counterexample: a contact payload is persisted as received (only
whitespace-stripped), not normalized to digits and leading plus — here the
created User keeps the spaces, parentheses and dash of the contact phone
number, a string that normalization would have changed. -/
theorem C5_counterexample :
    handle_phone 1 ⟨some "Alice", none⟩ (some "+1 (234) 56789") none [] =
      (⟨none, none⟩,
       [Eff.createUser 1 "Alice" "+1 (234) 56789", Eff.reply "No videos available yet."],
       .state .MENU) ∧
    normalize_phone "+1 (234) 56789" ≠ "+1 (234) 56789" :=
  ⟨rfl, by decide⟩

/-- C5 amended: in AwaitingPhone with a pending name, text input is
normalized (strip, then keep only digits and plus characters) while a
contact payload phone number is used as received after stripping; the
extracted phone with fewer than 7 digits re-prompts and stays at PHONE, and
with 7 or more digits the User(identity, name, extracted phone) is
persisted, the pending name is cleared, and the flow reaches MENU with the
video menu. -/
theorem C5_amended (tid : Nat) (sc : Scratch) (contactPhone text : Option String)
    (videos : List Video) (hname : pyStrip (sc.full_name.getD "") ≠ "") :
    handle_phone tid sc contactPhone text videos =
      if (digitsOnly (extract_phone contactPhone text)).data.length < 7 then
        (sc, [Eff.reply "Please share a valid phone number using the button."], .state .PHONE)
      else
        ({ sc with full_name := none },
         [Eff.createUser tid (pyStrip (sc.full_name.getD "")) (extract_phone contactPhone text),
          send_video_menu videos "Registration successful! Choose a video below."],
         .state .MENU) := by
  simp only [handle_phone]
  rw [if_neg hname]

/-- Witness for C5 amended: one failing and one succeeding concrete phone
submission. -/
theorem C5_amended_witness :
    handle_phone 3 ⟨some "Alice", none⟩ none (some "12345") [] =
      (if (digitsOnly (extract_phone none (some "12345"))).data.length < 7 then
        (⟨some "Alice", none⟩,
         [Eff.reply "Please share a valid phone number using the button."], .state .PHONE)
      else
        ((⟨none, none⟩ : Scratch),
         [Eff.createUser 3 (pyStrip "Alice") (extract_phone none (some "12345")),
          send_video_menu [] "Registration successful! Choose a video below."],
         .state .MENU)) ∧
    handle_phone 3 ⟨some "Alice", none⟩ none (some "+1 234 5678") [] =
      (if (digitsOnly (extract_phone none (some "+1 234 5678"))).data.length < 7 then
        (⟨some "Alice", none⟩,
         [Eff.reply "Please share a valid phone number using the button."], .state .PHONE)
      else
        ((⟨none, none⟩ : Scratch),
         [Eff.createUser 3 (pyStrip "Alice") (extract_phone none (some "+1 234 5678")),
          send_video_menu [] "Registration successful! Choose a video below."],
         .state .MENU)) :=
  ⟨C5_amended 3 ⟨some "Alice", none⟩ none (some "12345") [] (by decide),
   C5_amended 3 ⟨some "Alice", none⟩ none (some "+1 234 5678") [] (by decide)⟩

/-! ### Claim C6 -/

/-- C6: the add-video round trip. Submitting a nonempty title T at
AwaitingTitle stores it and moves to AwaitingLink; submitting a nonempty
link L there (as an admin) persists exactly one Video(T, L), clears the
pending title, attempts a broadcast containing L to every current user, and
returns to the stable ADMIN_MENU state. -/
theorem C6_add_video_roundtrip (sc : Scratch) (T L : String)
    (users : List (Nat × String × String)) (deliver : Nat → Bool)
    (hT : pyStrip T = T) (hTne : T ≠ "") (hL : pyStrip L = L) (hLne : L ≠ "") :
    add_video_title sc (some T) =
      ({ sc with video_title := some T }, [Eff.reply "Enter YouTube link:"], .state .ADD_LINK) ∧
    createdVideos (add_video_link true { sc with video_title := some T } (some L) users deliver).2.1 =
      [(T, L)] ∧
    (add_video_link true { sc with video_title := some T } (some L) users deliver).1.video_title =
      none ∧
    (add_video_link true { sc with video_title := some T } (some L) users deliver).2.2 =
      .state .ADMIN_MENU ∧
    sendAttempts (add_video_link true { sc with video_title := some T } (some L) users deliver).2.1 =
      users.map (fun u => (u.1, "New video just released!\n" ++ L)) := by
  have h1 : add_video_title sc (some T) =
      ({ sc with video_title := some T }, [Eff.reply "Enter YouTube link:"], .state .ADD_LINK) := by
    simp only [add_video_title, hT, if_neg hTne]
  have h2 : add_video_link true { sc with video_title := some T } (some L) users deliver =
      ({ sc with video_title := none },
       Eff.createVideo T L :: Eff.reply "Video added successfully." ::
         (broadcastEffects deliver ("New video just released!\n" ++ L)
            (users.map (fun u => u.1)) ++ [Eff.reply "Admin panel:"]),
       .state .ADMIN_MENU) := by
    simp only [add_video_link, Bool.not_true, Bool.false_eq_true, if_false, Option.getD_some,
      hT, hL, if_neg hTne, if_neg hLne]
  refine ⟨h1, ?_, ?_, ?_, ?_⟩
  · rw [h2]
    simp only [createdVideos, List.filterMap_cons, List.filterMap_append,
      broadcast_created_raw]
    rfl
  · rw [h2]
  · rw [h2]
  · rw [h2]
    simp only [sendAttempts, List.filterMap_cons, List.filterMap_append, broadcast_send_raw]
    simp [List.map_map, Function.comp_def]

/-- Witness for C6 at concrete inputs (two users, the second delivery
failing). -/
theorem C6_add_video_roundtrip_witness :
    add_video_title Scratch.empty (some "T") =
      ({ Scratch.empty with video_title := some "T" },
       [Eff.reply "Enter YouTube link:"], .state .ADD_LINK) ∧
    createdVideos (add_video_link true { Scratch.empty with video_title := some "T" } (some "L")
        [(7, "Bob", "1234567"), (8, "Eve", "7654321")] (fun i => i != 8)).2.1 = [("T", "L")] ∧
    (add_video_link true { Scratch.empty with video_title := some "T" } (some "L")
        [(7, "Bob", "1234567"), (8, "Eve", "7654321")] (fun i => i != 8)).1.video_title = none ∧
    (add_video_link true { Scratch.empty with video_title := some "T" } (some "L")
        [(7, "Bob", "1234567"), (8, "Eve", "7654321")] (fun i => i != 8)).2.2 =
      .state .ADMIN_MENU ∧
    sendAttempts (add_video_link true { Scratch.empty with video_title := some "T" } (some "L")
        [(7, "Bob", "1234567"), (8, "Eve", "7654321")] (fun i => i != 8)).2.1 =
      [(7, "Bob", "1234567"), (8, "Eve", "7654321")].map
        (fun u => (u.1, "New video just released!\n" ++ "L")) :=
  C6_add_video_roundtrip Scratch.empty "T" "L"
    [(7, "Bob", "1234567"), (8, "Eve", "7654321")] (fun i => i != 8)
    (by decide) (by decide) (by decide) (by decide)

/-! ### Claim C7 -/

/-- C7: the broadcast loop attempts delivery to every recipient
independently and in order whatever the delivery outcomes are, logs exactly
the failing recipients without aborting the rest, and paces with one sleep
per send. In particular, with three recipients of which the second fails,
the first and third are still attempted and the loop completes. -/
theorem C7_broadcast_resilience (deliver : Nat → Bool) (msg : String) (recipients : List Nat) :
    sendAttempts (broadcastEffects deliver msg recipients) =
      recipients.map (fun r => (r, msg)) ∧
    loggedFailures (broadcastEffects deliver msg recipients) =
      recipients.filter (fun r => !deliver r) ∧
    sleepCount (broadcastEffects deliver msg recipients) = recipients.length :=
  ⟨broadcast_send_raw deliver msg recipients,
   broadcast_log_raw deliver msg recipients,
   broadcast_sleep_raw deliver msg recipients⟩

/-! ### Claim C8 -/

/-- C8: in MENU, a text equal to one of the admin button labels is ignored
with no reply, staying at MENU, for EVERY catalogue — including one holding
a video with that exact title — and any other text that is not the refresh
token and matches no video title is also silently ignored. -/
theorem C8_menu_ignores_admin_buttons (videos : List Video) (t : String) :
    (t ∈ ADMIN_BUTTONS → handle_menu videos (some t) = ([], .state .MENU)) ∧
    (pyStrip t ≠ "" → ADMIN_BUTTONS.contains (pyStrip t) = false →
      pyStrip t ≠ "🔄 Refresh videos" → get_video_by_title videos (pyStrip t) = none →
      handle_menu videos (some t) = ([], .state .MENU)) := by
  constructor
  · intro h
    simp only [ADMIN_BUTTONS, List.mem_cons, List.not_mem_nil, or_false] at h
    rcases h with h | h | h <;> subst h <;> rfl
  · intro h1 h2 h3 h4
    simp only [handle_menu, Option.getD_some]
    rw [if_neg h1]
    rw [h2]
    simp only [Bool.false_eq_true, if_false]
    rw [if_neg h3, h4]

/-- Witness for C8: the label Add Video is ignored even though a video
titled Add Video is in the catalogue, and an unknown text is ignored too. -/
theorem C8_menu_ignores_admin_buttons_witness :
    handle_menu [⟨0, "Add Video", "linkX"⟩] (some "Add Video") = ([], .state .MENU) ∧
    handle_menu [⟨0, "Add Video", "linkX"⟩] (some "no such title") = ([], .state .MENU) :=
  ⟨(C8_menu_ignores_admin_buttons [⟨0, "Add Video", "linkX"⟩] "Add Video").1 (by decide),
   (C8_menu_ignores_admin_buttons [⟨0, "Add Video", "linkX"⟩] "no such title").2
     (by decide) (by decide) (by decide) (by decide)⟩

/-! ### Claim C9 -/

/-- C9 counterexample: when the underlying AdminRecord lookup fails, the
result of _is_admin is the propagated failure, not the value false — the
source has no exception handling around the lookup, refuting the claim that
a lookup failure is treated as not-admin. -/
theorem C9_counterexample :
    isAdminViaLookup (fun _ => Except.error "db unavailable") 1 2 =
      Except.error "db unavailable" ∧
    isAdminViaLookup (fun _ => Except.error "db unavailable") 1 2 ≠ Except.ok false :=
  ⟨rfl, fun h => Except.noConfusion h⟩

/-- C9 amended: _is_admin returns true immediately for the configured
super-admin identity without consulting the store (the result is the same
for every lookup), and for any other identity it returns exactly the
outcome of the store lookup — including a failure, which propagates to the
caller instead of being treated as not-admin. -/
theorem C9_amended (lookup : Nat → Except String Bool) (adminId tid : Nat) :
    isAdminViaLookup lookup adminId adminId = .ok true ∧
    (tid ≠ adminId → isAdminViaLookup lookup adminId tid = lookup tid) := by
  constructor
  · simp [isAdminViaLookup]
  · intro h
    simp [isAdminViaLookup, h]

/-- Witness for C9 amended at a failing lookup. -/
theorem C9_amended_witness :
    isAdminViaLookup (fun _ => Except.error "down") 1 1 = .ok true ∧
    isAdminViaLookup (fun _ => Except.error "down") 1 2 = Except.error "down" :=
  ⟨(C9_amended (fun _ => Except.error "down") 1 2).1,
   (C9_amended (fun _ => Except.error "down") 1 2).2 (by decide)⟩

/-! ### Claim C10 -/

/-- C10: /addadmin is granted only to the hardcoded super-admin identity —
every other sender (the function never consults the AdminRecord store, so
this includes stored admins) gets Access denied and no AdminRecord is
persisted; the super-admin with a missing or non-numeric argument gets the
usage message and no AdminRecord is persisted. -/
theorem C10_addadmin_restricted (adminId sender : Nat) (args : List String) :
    (sender ≠ adminId →
      addadmin_command adminId sender args = [Eff.reply "Access denied."] ∧
      addedAdmins (addadmin_command adminId sender args) = []) ∧
    ((args.isEmpty || !pyIsDigit (args.headD "")) = true →
      addadmin_command adminId adminId args = [Eff.reply "Usage: /addadmin <telegram_id>"] ∧
      addedAdmins (addadmin_command adminId adminId args) = []) := by
  constructor
  · intro h
    have he : addadmin_command adminId sender args = [Eff.reply "Access denied."] := by
      simp [addadmin_command, h]
    exact ⟨he, by rw [he]; rfl⟩
  · intro h
    have he : addadmin_command adminId adminId args =
        [Eff.reply "Usage: /addadmin <telegram_id>"] := by
      unfold addadmin_command
      rw [if_neg (fun hc => hc rfl), if_pos h]
    exact ⟨he, by rw [he]; rfl⟩

/-- Witness for C10: a non-super-admin sender with a numeric argument is
denied, and the super-admin with a non-numeric argument gets the usage
message; neither run persists an AdminRecord. -/
theorem C10_addadmin_restricted_witness :
    (addadmin_command 1 2 ["5"] = [Eff.reply "Access denied."] ∧
     addedAdmins (addadmin_command 1 2 ["5"]) = []) ∧
    (addadmin_command 1 1 ["abc"] = [Eff.reply "Usage: /addadmin <telegram_id>"] ∧
     addedAdmins (addadmin_command 1 1 ["abc"]) = []) :=
  ⟨(C10_addadmin_restricted 1 2 ["5"]).1 (by decide),
   (C10_addadmin_restricted 1 1 ["abc"]).2 (by decide)⟩

end SatBot
